import Mathlib

/-!
Verification development for the thuriyam-base authentication /
validation core: a shallow embedding of the token service
(`app/core/security/jwt.py`), the authorization gate
(`app/core/security/auth.py`), the user service (`app/users/service.py`),
the account-service auth service / token ledger
(`account-service/app/auth/{service,repository,model}.py`) and the
per-entity validators, together with theorems settling the spec claims.

Time is modelled as an integer count of seconds (an absolute epoch
timestamp); the clock is passed explicitly (`now`).  The external JWT
library (python-jose) is modelled symbolically: a well-formed token is its
payload together with the key it was signed with, and `decode` succeeds
exactly when the keys agree and the token is not expired, returning the
payload unchanged.  Password hashing (passlib) is modelled by an abstract
verification function, and the SHA-256 token hash by an abstract function
from tokens to strings, both passed as parameters.
-/

namespace Thuriyam

/-- The claim set used by the repository's own flows.  `create_access_token`
is always called with a subject, user id, email and scope list; `exp` is
the expiration the token service adds.  An absent field models an absent
dictionary key. -/
structure Claims where
  sub : Option String
  user_id : Option String
  email : Option String
  scopes : Option (List String)
  exp : Option Int
deriving DecidableEq, Repr

/-- Python truthiness of the payload dictionary: `if not payload` is true
when the dictionary is empty (every key absent). -/
def Claims.isEmptyDict (c : Claims) : Bool :=
  c.sub.isNone && c.user_id.isNone && c.email.isNone && c.scopes.isNone && c.exp.isNone

/-- Wire-level bearer token: either a string that is not a well-formed
signed envelope at all, or a payload signed under a key. -/
inductive Token where
  | malformed (raw : String)
  | signed (payload : Claims) (key : String)
deriving DecidableEq, Repr

/-- Embeds `create_access_token(data, expires_delta)` from
`app/core/security/jwt.py`.  `expires_delta` is an optional timedelta
(seconds here); the Python guard `if expires_delta:` is a truthiness test,
so both `None` and a zero timedelta fall into the 15-minute default
branch.  The chosen expiration is written into the payload (overwriting
any `exp` already present, as `dict.update` does) and the result is signed
with the configured secret key. -/
def create_access_token (data : Claims) (expires_delta : Option Int)
    (secretKey : String) (now : Int) : Token :=
  let expire : Int :=
    match expires_delta with
    | some d => if d ≠ 0 then now + d else now + 15 * 60
    | none => now + 15 * 60
  Token.signed { data with exp := some expire } secretKey

/-- Expiry check performed by the JWT library during decode: a token is
expired when its `exp` claim is strictly below the current time; a payload
with no `exp` claim is not checked for expiry. -/
def tokenExpired (c : Claims) (now : Int) : Bool :=
  match c.exp with
  | some e => e < now
  | none => false

/-- Embeds `decode_token(token)` from `app/core/security/jwt.py`: every library
failure (malformed envelope, signature mismatch, expired token) is caught
as `JWTError` and turned into `None`; nothing is raised past this
boundary.  Signature and expiry are checked in the same call. -/
def decode_token (tok : Token) (secretKey : String) (now : Int) : Option Claims :=
  match tok with
  | .malformed _ => none
  | .signed payload key =>
    if key = secretKey then
      if tokenExpired payload now then none else some payload
    else none

/-- Row of the `users` table
(`account-service/app/users/model.py`). -/
structure UserRec where
  id : String
  username : String
  email : String
  hashed_password : String
  full_name : Option String
  is_active : Bool
  is_admin : Bool
  last_login : Option Int
deriving DecidableEq, Repr

/-- Embeds `UserRepository.get_user_by_username`: first row whose username column
matches. -/
def get_user_by_username (users : List UserRec) (username : String) : Option UserRec :=
  users.find? (fun u => u.username == username)

/-- Embeds `UserService.authenticate_user` (`app/users/service.py` lines 55-61).
`verify` models `passlib`'s `verify_password(plain, hashed)`. -/
def UserService.authenticate_user (verify : String → String → Bool)
    (users : List UserRec) (username password : String) : Option UserRec :=
  match get_user_by_username users username with
  | none => none
  | some user => if verify password user.hashed_password then some user else none

/-- Row of the `jwt_tokens` table
(`account-service/app/auth/model.py`). -/
structure JWTTokenRec where
  id : String
  token_hash : String
  user_id : String
  expires_at : Int
  scopes : String
  is_revoked : Bool
deriving DecidableEq, Repr

/-- Embeds `JWTTokenRepository.get_by_hash`: first row whose `token_hash` column
matches. -/
def get_by_hash (ledger : List JWTTokenRec) (h : String) : Option JWTTokenRec :=
  ledger.find? (fun t => t.token_hash == h)

/-- Modelled from the spec: the `Operation` enum of `core.base.validator`
is not under `src/`; per the spec the registry is keyed by an operation
enum covering the create/update/delete persistence calls, and
`User.get_validator` dispatches on exactly these three values. -/
inductive Operation where
  | CREATE
  | UPDATE
  | DELETE
deriving DecidableEq, Repr

/-- Rendering used by Python's f-string `f"Unknown operation: {operation}"`. -/
def Operation.pyName : Operation → String
  | .CREATE => "Operation.CREATE"
  | .UPDATE => "Operation.UPDATE"
  | .DELETE => "Operation.DELETE"

/-- Tags for the pydantic validator classes wired to the entity models. -/
inductive ValidatorTag where
  | CreateJWTTokenValidator
  | CreateUserValidator
  | UpdateUserValidator
  | DeleteUserValidator
  | TodoCreateValidator
  | CampaignCreateValidator
  | CampaignUpdateValidator
deriving DecidableEq, Repr

/-- Embeds `JWTToken.get_validator` (`account-service/app/auth/model.py` lines
16-21): only `CREATE` is wired; any other operation raises
`ValueError(f"Unknown operation: {operation}")`. -/
def JWTToken.get_validator (op : Operation) : Except String ValidatorTag :=
  match op with
  | .CREATE => .ok .CreateJWTTokenValidator
  | _ => .error ("Unknown operation: " ++ op.pyName)

/-- Embeds `Todo.get_validator` (`app/todos/model.py` lines 14-17): returns the
create validator for every operation and never raises. -/
def Todo.get_validator (_op : Operation) : Except String ValidatorTag :=
  .ok .TodoCreateValidator

/-- Embeds `Campaign.get_validator` (`app/campaigns/model.py` lines 22-29). -/
def Campaign.get_validator (op : Operation) : Except String ValidatorTag :=
  match op with
  | .CREATE => .ok .CampaignCreateValidator
  | .UPDATE => .ok .CampaignUpdateValidator
  | op => .error ("Unknown operation: " ++ op.pyName)

/-- Embeds `User.get_validator` (`account-service/app/users/model.py`). -/
def User.get_validator (op : Operation) : Except String ValidatorTag :=
  match op with
  | .CREATE => .ok .CreateUserValidator
  | .UPDATE => .ok .UpdateUserValidator
  | .DELETE => .ok .DeleteUserValidator

/-- Modelled from the spec: `core.base.validator.BaseValidator` is not
under `src/` (only its import in `core/base/repository.py` is).  Per the
spec's Validator Registry contract and design notes, `validate(model,
operation, attrs)` dispatches to the model's `get_validator(operation)`
and surfaces the unknown-operation condition when no schema is registered
for that operation.  This is the dispatch step for the `JWTToken` model;
an `Except.error` models the raised `ValueError` propagating to the
caller. -/
def BaseValidator.validateDispatchJWTToken (op : Operation) : Except String ValidatorTag :=
  JWTToken.get_validator op

/-- Embeds `BaseRepository.update` (`app/core/base/repository.py`) specialised to
the `JWTToken` model with update data `\x7b"is_revoked": value\x7d`: look the
row up by id (`None` when absent), run the validator dispatch, then apply
the field assignment.  The dispatch error is the raised exception. -/
def JWTTokenRepository.update_is_revoked (ledger : List JWTTokenRec) (id : String)
    (value : Bool) : Except String (Option (List JWTTokenRec)) :=
  match ledger.find? (fun t => t.id == id) with
  | none => .ok none
  | some _ =>
    match BaseValidator.validateDispatchJWTToken .UPDATE with
    | .error e => .error e
    | .ok _ =>
      .ok (some (ledger.map (fun t => if t.id == id then { t with is_revoked := value } else t)))

/-- Embeds `JWTTokenRepository.revoke_token`
(`account-service/app/auth/repository.py` lines 18-25): absent hash
returns `False`; otherwise `update(token.id, \x7b"is_revoked": True\x7d)` runs
and the method returns `True`.  The result pairs the returned boolean with
the resulting ledger state; an `Except.error` models an exception escaping
the method. -/
def JWTTokenRepository.revoke_token (ledger : List JWTTokenRec) (token_hash : String) :
    Except String (Bool × List JWTTokenRec) :=
  match get_by_hash ledger token_hash with
  | none => .ok (false, ledger)
  | some tok =>
    match JWTTokenRepository.update_is_revoked ledger tok.id true with
    | .error e => .error e
    | .ok none => .ok (true, ledger)
    | .ok (some ledger2) => .ok (true, ledger2)

/-- The `user` dictionary returned by a successful token validation
(`account-service/app/auth/service.py` lines 79-88). -/
structure UserInfo where
  id : String
  username : String
  email : String
  roles : List String
  scopes : List String
deriving DecidableEq, Repr

/-- Embeds `TokenValidationResponse` (`account-service/app/auth/schema.py`). -/
structure TokenValidationResponse where
  valid : Bool
  user : Option UserInfo
  error : Option String
deriving DecidableEq, Repr

/-- Embeds `LoginRequest` (`account-service/app/auth/schema.py`): pydantic gives
`scopes` the default `["me"]`, so `scopes = some ["me"]` when the field is
omitted from the request body; an explicit JSON `null` parses to `none`
and an explicit `[]` to `some []`. -/
structure LoginRequest where
  username : String
  password : String
  scopes : Option (List String)
deriving DecidableEq, Repr

/-- Embeds `TokenResponse` (`account-service/app/auth/schema.py`). -/
structure TokenResponse where
  access_token : Token
  token_type : String
  expires_in : Int
  scopes : List String
deriving DecidableEq, Repr

/-- Embeds `login_data.scopes or ["me"]`: Python `or` picks the default when the
left side is falsy, i.e. when it is `None` or the empty list. -/
def scopesOrDefault : Option (List String) → List String
  | none => ["me"]
  | some [] => ["me"]
  | some (s :: ss) => s :: ss

/-- Model of `json.dumps(scopes)`: an injective serialisation of the scope
list to the text column. -/
def scopesJson (scopes : List String) : String :=
  "[" ++ String.intercalate "," scopes ++ "]"

/-- Embeds `AuthService.authenticate_user`
(`account-service/app/auth/service.py` lines 18-55): authenticate the
credentials, pick the scopes, mint a 30-minute token, and record its hash
in the ledger.  The ledger row's `expires_at` is computed from
`user.last_login + access_token_expires` exactly as in the source; when
`last_login` is NULL this is `None + timedelta`, a `TypeError`, modelled
as `Except.error`.  `hashFn` models `hashlib.sha256(...).hexdigest()` and
`freshId` the id generated by `BaseRepository.save`.  The
`ModelBuilder`/`CreateJWTTokenValidator` step passes here because every
required attribute (`token_hash`, `user_id`, `expires_at`) is supplied.
Returns the response together with the ledger state after the save. -/
def AuthService.authenticate_user (verify : String → String → Bool)
    (hashFn : Token → String) (secretKey : String) (now : Int) (freshId : String)
    (users : List UserRec) (ledger : List JWTTokenRec) (login : LoginRequest) :
    Except String (Option (TokenResponse × List JWTTokenRec)) :=
  match UserService.authenticate_user verify users login.username login.password with
  | none => .ok none
  | some user =>
    let scopes := scopesOrDefault login.scopes
    let access_token_expires : Int := 30 * 60
    let access_token := create_access_token
      { sub := some user.username, user_id := some user.id, email := some user.email,
        scopes := some scopes, exp := none }
      (some access_token_expires) secretKey now
    let token_hash := hashFn access_token
    match user.last_login with
    | none => .error "TypeError: unsupported operand type(s) for +: NoneType and timedelta"
    | some last_login =>
      let tokenModel : JWTTokenRec :=
        { id := freshId, token_hash := token_hash, user_id := user.id,
          expires_at := last_login + access_token_expires,
          scopes := scopesJson scopes, is_revoked := false }
      .ok (some
        ({ access_token := access_token, token_type := "bearer",
           expires_in := access_token_expires, scopes := scopes },
         ledger ++ [tokenModel]))

/-- Embeds `AuthService.validate_token` (`account-service/app/auth/service.py`
lines 57-90).  `if not payload:` is a truthiness test, so both a decode
failure and an empty claims dictionary yield "Invalid token"; likewise
`if not username:` treats both an absent and an empty-string subject as
missing.  The ledger check only rejects when a row exists and is revoked;
an absent row falls through to the user lookup. -/
def AuthService.validate_token (hashFn : Token → String) (secretKey : String)
    (now : Int) (users : List UserRec) (ledger : List JWTTokenRec)
    (token : Token) : TokenValidationResponse :=
  match decode_token token secretKey now with
  | none => { valid := false, user := none, error := some "Invalid token" }
  | some payload =>
    if payload.isEmptyDict then
      { valid := false, user := none, error := some "Invalid token" }
    else
      match payload.sub with
      | none => { valid := false, user := none, error := some "Missing user information" }
      | some username =>
        if username = "" then
          { valid := false, user := none, error := some "Missing user information" }
        else
          let token_hash := hashFn token
          let afterLedger : TokenValidationResponse :=
            match get_user_by_username users username with
            | none => { valid := false, user := none, error := some "User not found" }
            | some user =>
              { valid := true,
                user := some
                  { id := user.id, username := user.username, email := user.email,
                    roles := if user.is_admin then ["user", "admin"] else ["user"],
                    scopes := payload.scopes.getD [] },
                error := none }
          match get_by_hash ledger token_hash with
          | some stored =>
            if stored.is_revoked then
              { valid := false, user := none, error := some "Token revoked" }
            else afterLedger
          | none => afterLedger

/-- Outcome of the authorization gate: HTTP 401, HTTP 403, or the
authenticated user. -/
inductive AuthOutcome where
  | unauthorized (detail : String)
  | forbidden (detail : String)
  | ok (user : UserRec)
deriving DecidableEq, Repr

/-- Embeds `get_current_user` (`app/core/security/auth.py` lines 48-76): decode
the bearer token (401 on failure or absent subject — here the check is
`is None`, not truthiness), then reject with 403 as soon as one required
scope is not a member of the token's scope list (`payload.get("scopes",
[])`), then resolve the user (401 when absent).  Scope matching is plain
list membership of exact strings. -/
def get_current_user (requiredScopes : List String) (secretKey : String)
    (now : Int) (users : List UserRec) (token : Token) : AuthOutcome :=
  match decode_token token secretKey now with
  | none => .unauthorized "Could not validate credentials"
  | some payload =>
    match payload.sub with
    | none => .unauthorized "Could not validate credentials"
    | some username =>
      let token_scopes := payload.scopes.getD []
      if requiredScopes.all (fun s => token_scopes.contains s) then
        match get_user_by_username users username with
        | none => .unauthorized "Could not validate credentials"
        | some user => .ok user
      else .forbidden "Not enough permissions"

/-- Attribute set submitted to `CreateUserValidator`
(`app/users/validator.py`); an absent field models an absent key. -/
structure UserAttrs where
  username : Option String
  email : Option String
  password : Option String
  full_name : Option String
deriving DecidableEq, Repr

/-- Character class of the username pattern `[a-zA-Z0-9_-]` (ASCII, as in
the Python regex). -/
def usernameCharOk (c : Char) : Bool :=
  c.isAlphanum || c == '_' || c == '-'

/-- Embeds `re.match("^[a-zA-Z0-9_-]+$", v)`: one or more characters of the
class; Python's `$` also matches just before one trailing newline. -/
def usernameMatches (v : String) : Bool :=
  let core := fun (l : List Char) => !l.isEmpty && l.all usernameCharOk
  core v.toList ||
    (v.toList.getLast? == some (Char.ofNat 10) && core v.toList.dropLast)

/-- Errors pydantic reports for the `username` field: required when
absent, else the first `ValueError` raised by the `username_alphanumeric`
field validator. -/
def usernameFieldErrors (v : Option String) : List String :=
  match v with
  | none => ["username: Field required"]
  | some v =>
    if !usernameMatches v then
      ["username: Username must be alphanumeric and can contain underscores and hyphens"]
    else if v.length < 3 then
      ["username: Username must be at least 3 characters long"]
    else if v.length > 50 then
      ["username: Username must not exceed 50 characters"]
    else []

/-- Model of pydantic's `EmailStr` type check (external library),
abstracted to: exactly one `@` with a non-empty local part and a non-empty
domain part. -/
def emailValid (v : String) : Bool :=
  let cs := v.toList
  cs.count '@' == 1 && cs.head? != some '@' && cs.getLast? != some '@'

/-- Errors pydantic reports for the `email` field. -/
def emailFieldErrors (v : Option String) : List String :=
  match v with
  | none => ["email: Field required"]
  | some v =>
    if emailValid v then [] else ["email: value is not a valid email address"]

/-- The character class `[!@#$%^&*(),.?":\x7b\x7d|<>]` of the password
special-character check. -/
def passwordSpecials : List Char :=
  ['!', '@', '#', '$', '%', '^', '&', '*', '(', ')', ',', '.', '?',
   '\x22', ':', '\x7b', '\x7d', '|', '<', '>']

/-- Errors pydantic reports for the `password` field: required when
absent, else the first `ValueError` raised by the `password_strength`
field validator (digits modelled as ASCII). -/
def passwordFieldErrors (v : Option String) : List String :=
  match v with
  | none => ["password: Field required"]
  | some v =>
    if v.length < 8 then
      ["password: Password must be at least 8 characters long"]
    else if !(v.toList.any Char.isUpper) then
      ["password: Password must contain at least one uppercase letter"]
    else if !(v.toList.any Char.isLower) then
      ["password: Password must contain at least one lowercase letter"]
    else if !(v.toList.any Char.isDigit) then
      ["password: Password must contain at least one number"]
    else if !(v.toList.any (fun c => passwordSpecials.contains c)) then
      ["password: Password must contain at least one special character"]
    else []

/-- All field errors of `CreateUserValidator`, in field order: pydantic
validates every field independently and aggregates the errors of all
fields into the one raised `ValidationError` (`full_name` is optional and
unconstrained). -/
def CreateUserValidator.errors (a : UserAttrs) : List String :=
  usernameFieldErrors a.username ++ emailFieldErrors a.email ++
    passwordFieldErrors a.password

/-- Validation of an attribute set against `CreateUserValidator`: the
conforming case returns the attributes unchanged (the repository's update
path ignores the constructed model and applies the original attributes),
the non-conforming case fails with the single aggregated error list. -/
def CreateUserValidator.validate (a : UserAttrs) : Except (List String) UserAttrs :=
  let es := CreateUserValidator.errors a
  if es.isEmpty then .ok a else .error es

/-- Attribute set submitted to `TodoCreateValidator`
(`app/todos/validator.py`). -/
structure TodoAttrs where
  title : Option String
  description : Option String
  completed : Option Bool
deriving DecidableEq, Repr

/-- Errors for `title`: required; `min_length=1`, `max_length=200`. -/
def titleFieldErrors (v : Option String) : List String :=
  match v with
  | none => ["title: Field required"]
  | some v =>
    if v.length < 1 then ["title: String should have at least 1 character"]
    else if v.length > 200 then ["title: String should have at most 200 characters"]
    else []

/-- Errors for `description`: optional with default `""`;
`max_length=1000`. -/
def descriptionFieldErrors (v : Option String) : List String :=
  match v with
  | none => []
  | some v =>
    if v.length > 1000 then ["description: String should have at most 1000 characters"]
    else []

/-- All field errors of `TodoCreateValidator`, aggregated across fields
(`completed` is an unconstrained boolean with a default). -/
def TodoCreateValidator.errors (a : TodoAttrs) : List String :=
  titleFieldErrors a.title ++ descriptionFieldErrors a.description

/-- Validation of an attribute set against `TodoCreateValidator`. -/
def TodoCreateValidator.validate (a : TodoAttrs) : Except (List String) TodoAttrs :=
  let es := TodoCreateValidator.errors a
  if es.isEmpty then .ok a else .error es

/-! ## Claims -/

/-- Concrete claims mapping used for claim C4. -/
def c4Claims : Claims :=
  { sub := some "alice", user_id := some "u1", email := some "a@example.com",
    scopes := some ["me"], exp := none }

/-- C4 counterexample: with TTL zero (a legal `timedelta`), the Python
guard `if expires_delta:` is false, so the token's expiration is the
15-minute default (issuance + 900), not issuance + TTL = issuance + 0 as
the claim states for every TTL. -/
theorem C4_counterexample_zero_ttl :
    decode_token (create_access_token c4Claims (some 0) "secret" 0) "secret" 0 =
      some { c4Claims with exp := some 900 } ∧
    decode_token (create_access_token c4Claims (some 0) "secret" 0) "secret" 0 ≠
      some { c4Claims with exp := some 0 } := by
  constructor <;> decide

/-- C4 (amended): for every claims mapping and every positive TTL,
issuing with `create_access_token` and immediately decoding with
`decode_token` yields exactly the supplied claims with only the
expiration claim set, to issuance time + TTL. -/
theorem C4_issue_then_decode_roundtrip (c : Claims) (ttl : Int) (key : String)
    (now : Int) (h : 0 < ttl) :
    decode_token (create_access_token c (some ttl) key now) key now =
      some { c with exp := some (now + ttl) } := by
  have hne : ttl ≠ 0 := by omega
  have hexp : tokenExpired { c with exp := some (now + ttl) } now = false := by
    simp [tokenExpired]
    omega
  simp [create_access_token, decode_token, hne, hexp]

/-- C4 witness: a concrete issue-then-decode round trip. -/
theorem C4_issue_then_decode_roundtrip_witness :
    decode_token (create_access_token c4Claims (some 60) "secret" 100) "secret" 100 =
      some { c4Claims with exp := some 160 } :=
  C4_issue_then_decode_roundtrip c4Claims 60 "secret" 100 (by decide)

/-- Concrete payload used for claim C5. -/
def c5Payload : Claims :=
  { sub := some "alice", user_id := some "u1", email := some "a@example.com",
    scopes := some ["me"], exp := some 50 }

/-- C5: `decode_token` yields a null result (it is total, nothing is
raised past it) on a malformed token, on a signature that does not verify,
and on an expired token; in particular an expired-but-validly-signed token
gets no partial trust and fails decode. -/
theorem C5_decode_rejects_invalid :
    (∀ raw key now, decode_token (.malformed raw) key now = none) ∧
    (∀ p k key now, k ≠ key → decode_token (.signed p k) key now = none) ∧
    (∀ p key now e, p.exp = some e → e < now →
      decode_token (.signed p key) key now = none) := by
  refine ⟨fun raw key now => rfl, fun p k key now hk => ?_, fun p key now e he hlt => ?_⟩
  · simp [decode_token, hk]
  · simp [decode_token, tokenExpired, he, hlt]

/-- C5 witness: a malformed token, a token signed under the wrong key,
and an expired validly-signed token all decode to the null result. -/
theorem C5_decode_rejects_invalid_witness :
    decode_token (.malformed "garbage") "secret" 0 = none ∧
    decode_token (.signed c5Payload "other") "secret" 0 = none ∧
    decode_token (.signed c5Payload "secret") "secret" 100 = none :=
  ⟨C5_decode_rejects_invalid.1 "garbage" "secret" 0,
   C5_decode_rejects_invalid.2.1 c5Payload "other" "secret" 0 (by decide),
   C5_decode_rejects_invalid.2.2 c5Payload "secret" 100 50 rfl (by decide)⟩

/-- C6: once the token decodes and carries a subject, the authorization
gate returns the 403 outcome exactly when some required scope is not an
exact-string member of the token's scope list, and when every required
scope is a member it passes the scope check and returns the resolved
user.  Membership is plain string-list containment: no hierarchy or
wildcards. -/
theorem C6_scope_gate (required : List String) (key : String) (now : Int)
    (users : List UserRec) (tok : Token) (p : Claims) (u : String)
    (hdec : decode_token tok key now = some p) (hsub : p.sub = some u) :
    (get_current_user required key now users tok = .forbidden "Not enough permissions" ↔
      required.all (fun s => (p.scopes.getD []).contains s) = false) ∧
    (∀ usr, required.all (fun s => (p.scopes.getD []).contains s) = true →
      get_user_by_username users u = some usr →
      get_current_user required key now users tok = .ok usr) := by
  constructor
  · cases hall : required.all (fun s => (p.scopes.getD []).contains s) with
    | true =>
      simp only [get_current_user, hdec, hsub, hall]
      cases hfind : get_user_by_username users u <;> simp [hfind]
    | false =>
      simp only [get_current_user, hdec, hsub, hall]
      simp
  · intro usr hall hfind
    simp only [get_current_user, hdec, hsub, hall, hfind]
    simp

/-- Concrete payload used for claim C6. -/
def c6Payload : Claims :=
  { sub := some "alice", user_id := some "u1", email := some "a@example.com",
    scopes := some ["me"], exp := none }

/-- C6 witness: a token carrying only the scope "me" presented to an
endpoint requiring the scope "admin" is rejected with the 403 outcome. -/
theorem C6_scope_gate_witness :
    get_current_user ["admin"] "secret" 0 [] (.signed c6Payload "secret") =
      .forbidden "Not enough permissions" :=
  (C6_scope_gate ["admin"] "secret" 0 [] (.signed c6Payload "secret") c6Payload
    "alice" (by decide) rfl).1.mpr (by decide)

/-- C9: `UserService.authenticate_user` (a total function — it never
throws) returns a stored identity exactly when the username lookup
resolves to it and the supplied password verifies against its stored
hash; every mismatch returns nothing. -/
theorem C9_authenticate_iff (verify : String → String → Bool)
    (users : List UserRec) (username password : String) (usr : UserRec) :
    UserService.authenticate_user verify users username password = some usr ↔
      (get_user_by_username users username = some usr ∧
        verify password usr.hashed_password = true) := by
  unfold UserService.authenticate_user
  cases hfind : get_user_by_username users username with
  | none => simp
  | some w =>
    by_cases hv : verify password w.hashed_password
    · simp only [hv, if_true]
      constructor
      · intro h
        cases h
        exact ⟨rfl, hv⟩
      · rintro ⟨h1, _⟩
        cases h1
        rfl
    · simp only [hv, if_false]
      constructor
      · intro h
        cases h
      · rintro ⟨h1, h2⟩
        cases h1
        exact absurd h2 hv

/-- The stored identity of the C9 witness. -/
def c9User : UserRec :=
  { id := "u1", username := "alice", email := "a@example.com",
    hashed_password := "Password1!", full_name := none, is_active := true,
    is_admin := false, last_login := none }

/-- C9 witness: the stored identity is returned exactly for the matching
credentials. -/
theorem C9_authenticate_iff_witness :
    UserService.authenticate_user (fun p h => p == h) [c9User] "alice" "Password1!" =
      some c9User :=
  (C9_authenticate_iff (fun p h => p == h) [c9User] "alice" "Password1!" c9User).mpr
    ⟨rfl, by decide⟩

/-- Ledger row used for claim C3's failing input: an unrevoked record. -/
def c3Ledger : List JWTTokenRec :=
  [{ id := "t1", token_hash := "h1", user_id := "u1", expires_at := 0,
     scopes := "[me]", is_revoked := false }]

/-- C3: revoking an absent token hash does return `False`, but revoking a
hash with a matching (unrevoked) ledger row does not return `True`: the
`update` call inside `revoke_token` dispatches validation for
`Operation.UPDATE`, `JWTToken` registers only a `CREATE` schema, and the
unknown-operation `ValueError` escapes — so `revoke` is not
exception-free and the claimed revoke-then-validate scenario is
unreachable. -/
theorem C3_revoke_raises_on_existing :
    (∀ ledger h, get_by_hash ledger h = none →
      JWTTokenRepository.revoke_token ledger h = .ok (false, ledger)) ∧
    JWTTokenRepository.revoke_token c3Ledger "h1" =
      .error "Unknown operation: Operation.UPDATE" := by
  constructor
  · intro ledger h hh
    unfold JWTTokenRepository.revoke_token
    rw [hh]
  · rfl

/-- C3 witness: revoking a hash absent from an empty ledger returns
`False` and leaves the ledger unchanged. -/
theorem C3_revoke_raises_on_existing_witness :
    JWTTokenRepository.revoke_token [] "absent" = .ok (false, []) :=
  C3_revoke_raises_on_existing.1 [] "absent" (by decide)

/-- User row used for claim C2's failing input: the stored
`last_login` (epoch second 1000) predates the login (epoch second
5000). -/
def c2User : UserRec :=
  { id := "u1", username := "alice", email := "a@example.com",
    hashed_password := "Password1!", full_name := none, is_active := true,
    is_admin := false, last_login := some 1000 }

/-- The login request of claim C2's failing input. -/
def c2Login : LoginRequest :=
  { username := "alice", password := "Password1!", scopes := none }

/-- The token response this login produces. -/
def c2Resp : TokenResponse :=
  { access_token := .signed
      { sub := some "alice", user_id := some "u1", email := some "a@example.com",
        scopes := some ["me"], exp := some 6800 } "secret",
    token_type := "bearer", expires_in := 1800, scopes := ["me"] }

/-- The ledger row this login writes. -/
def c2Rec : JWTTokenRec :=
  { id := "id1", token_hash := "h1", user_id := "u1", expires_at := 2800,
    scopes := "[me]", is_revoked := false }

/-- C2: at the failing input, the ledger row's `expires_at` is
`last_login + 1800 = 2800` while the minted token's own expiration is
`now + 1800 = 6800` — the recorded expiration does not equal the token's
expiration, because `authenticate_user` computes it from the stored
`last_login` (which nothing in the code base ever updates) instead of the
issuance time. -/
theorem C2_ledger_expiry_uses_stale_last_login :
    AuthService.authenticate_user (fun p h => p == h) (fun _ => "h1") "secret"
        5000 "id1" [c2User] [] c2Login = .ok (some (c2Resp, [c2Rec])) ∧
    c2Rec.expires_at = 2800 ∧
    (decode_token c2Resp.access_token "secret" 5000).map Claims.exp =
      some (some 6800) ∧
    c2Rec.expires_at ≠ 6800 := by
  refine ⟨by rfl, rfl, by rfl, by decide⟩

/-- Helper: the scope list chosen at login is never empty. -/
theorem scopesOrDefault_ne_nil (s : Option (List String)) : scopesOrDefault s ≠ [] := by
  cases s with
  | none => simp [scopesOrDefault]
  | some l => cases l <;> simp [scopesOrDefault]

/-- C10: every successful login's response carries exactly
`login.scopes or ["me"]`, which is never the empty list; in particular an
omitted scopes field (pydantic default `["me"]`), an explicit `null` and
an explicit empty list all yield the default scope set `["me"]`. -/
theorem C10_login_scopes_never_empty (verify : String → String → Bool)
    (hashFn : Token → String) (key : String) (now : Int) (freshId : String)
    (users : List UserRec) (ledger : List JWTTokenRec) (login : LoginRequest)
    (resp : TokenResponse) (ledger2 : List JWTTokenRec)
    (h : AuthService.authenticate_user verify hashFn key now freshId users ledger login =
      .ok (some (resp, ledger2))) :
    resp.scopes = scopesOrDefault login.scopes ∧ resp.scopes ≠ [] ∧
      ((login.scopes = none ∨ login.scopes = some [] ∨ login.scopes = some ["me"]) →
        resp.scopes = ["me"]) := by
  unfold AuthService.authenticate_user at h
  split at h
  · exact absurd h (by simp)
  · rename_i user _
    cases hl : user.last_login with
    | none => rw [hl] at h; exact absurd h (by simp)
    | some ll =>
      rw [hl] at h
      simp only [Except.ok.injEq, Option.some.injEq, Prod.mk.injEq] at h
      obtain ⟨hresp, -⟩ := h
      refine ⟨?_, ?_, ?_⟩
      · rw [← hresp]
      · rw [← hresp]
        exact scopesOrDefault_ne_nil login.scopes
      · intro hcase
        rw [← hresp]
        rcases hcase with hc | hc | hc <;> rw [hc] <;> rfl

/-- User row used for claim C10's witness. -/
def c10User : UserRec :=
  { id := "u1", username := "alice", email := "a@example.com",
    hashed_password := "Password1!", full_name := none, is_active := true,
    is_admin := false, last_login := some 1000 }

/-- A login request with an explicitly empty scopes list. -/
def c10Login : LoginRequest :=
  { username := "alice", password := "Password1!", scopes := some [] }

/-- The token response of the witness login. -/
def c10Resp : TokenResponse :=
  { access_token := .signed
      { sub := some "alice", user_id := some "u1", email := some "a@example.com",
        scopes := some ["me"], exp := some 1800 } "secret",
    token_type := "bearer", expires_in := 1800, scopes := ["me"] }

/-- The ledger row of the witness login. -/
def c10Rec : JWTTokenRec :=
  { id := "id1", token_hash := "h1", user_id := "u1", expires_at := 2800,
    scopes := "[me]", is_revoked := false }

/-- C10 witness: a login with an explicitly empty scope list is granted
the default scope set `["me"]`. -/
theorem C10_login_scopes_never_empty_witness :
    c10Resp.scopes = scopesOrDefault c10Login.scopes ∧ c10Resp.scopes ≠ [] ∧
      ((c10Login.scopes = none ∨ c10Login.scopes = some [] ∨
        c10Login.scopes = some ["me"]) → c10Resp.scopes = ["me"]) :=
  C10_login_scopes_never_empty (fun p h => p == h) (fun _ => "h1") "secret" 0
    "id1" [c10User] [] c10Login c10Resp [c10Rec] (by rfl)

/-- C7: for the registered create schemas cited by the claim
(`CreateUserValidator`, `TodoCreateValidator`), a conforming attribute
set validates to itself unchanged, a non-conforming one fails with the
single aggregated error list, and that list contains every violating
field's error — the failure is not cut off at the first violating
field. -/
theorem C7_validation_aggregates_all_errors :
    (∀ a : UserAttrs,
      CreateUserValidator.validate a = .ok a ↔ CreateUserValidator.errors a = []) ∧
    (∀ a : UserAttrs, CreateUserValidator.errors a ≠ [] →
      CreateUserValidator.validate a = .error (CreateUserValidator.errors a)) ∧
    (∀ a : UserAttrs, ∀ e : String,
      (e ∈ usernameFieldErrors a.username ∨ e ∈ emailFieldErrors a.email ∨
        e ∈ passwordFieldErrors a.password) → e ∈ CreateUserValidator.errors a) ∧
    (∀ a : TodoAttrs,
      TodoCreateValidator.validate a = .ok a ↔ TodoCreateValidator.errors a = []) ∧
    (∀ a : TodoAttrs, TodoCreateValidator.errors a ≠ [] →
      TodoCreateValidator.validate a = .error (TodoCreateValidator.errors a)) ∧
    (∀ a : TodoAttrs, ∀ e : String,
      (e ∈ titleFieldErrors a.title ∨ e ∈ descriptionFieldErrors a.description) →
        e ∈ TodoCreateValidator.errors a) := by
  refine ⟨fun a => ?_, fun a hne => ?_, fun a e he => ?_,
          fun a => ?_, fun a hne => ?_, fun a e he => ?_⟩
  · unfold CreateUserValidator.validate
    cases hes : CreateUserValidator.errors a with
    | nil => simp
    | cons x xs => simp
  · unfold CreateUserValidator.validate
    cases hes : CreateUserValidator.errors a with
    | nil => exact absurd hes hne
    | cons x xs => simp
  · unfold CreateUserValidator.errors
    rcases he with h | h | h <;> simp [h]
  · unfold TodoCreateValidator.validate
    cases hes : TodoCreateValidator.errors a with
    | nil => simp
    | cons x xs => simp
  · unfold TodoCreateValidator.validate
    cases hes : TodoCreateValidator.errors a with
    | nil => exact absurd hes hne
    | cons x xs => simp
  · unfold TodoCreateValidator.errors
    rcases he with h | h <;> simp [h]

/-- A non-conforming user attribute set violating three fields at once. -/
def c7Bad : UserAttrs :=
  { username := some "ab", email := some "nomail", password := some "short",
    full_name := none }

/-- C7 witness: validating `c7Bad` fails with one error list that carries
the username violation, the email violation and the password violation
together. -/
theorem C7_validation_aggregates_all_errors_witness :
    CreateUserValidator.validate c7Bad = .error (CreateUserValidator.errors c7Bad) ∧
    "username: Username must be at least 3 characters long" ∈
      CreateUserValidator.errors c7Bad ∧
    "email: value is not a valid email address" ∈ CreateUserValidator.errors c7Bad ∧
    "password: Password must be at least 8 characters long" ∈
      CreateUserValidator.errors c7Bad :=
  ⟨C7_validation_aggregates_all_errors.2.1 c7Bad (by decide),
   C7_validation_aggregates_all_errors.2.2.1 c7Bad _ (Or.inl (by decide)),
   C7_validation_aggregates_all_errors.2.2.1 c7Bad _ (Or.inr (Or.inl (by decide))),
   C7_validation_aggregates_all_errors.2.2.1 c7Bad _ (Or.inr (Or.inr (by decide)))⟩

/-- C8 counterexample: the todo model wires its CREATE schema to every
operation, so looking up the schema for an operation with no registered
schema (`DELETE` — the repository defines no todo delete or update
dispatch) silently yields the CREATE validator instead of failing with
the unknown-operation condition. -/
theorem C8_counterexample_todo_delete :
    Todo.get_validator .DELETE = .ok .TodoCreateValidator ∧
    ∀ e, Todo.get_validator .DELETE ≠ .error e := by
  refine ⟨rfl, fun e h => ?_⟩
  simp [Todo.get_validator] at h

/-- C8 (amended): `JWTToken.get_validator` and `Campaign.get_validator`
raise the unknown-operation `ValueError` for every operation without a
registered schema, and `User.get_validator` has a schema for all three
operations; `Todo.get_validator`, however, returns the CREATE validator
for every operation and never fails. -/
theorem C8_get_validator_dispatch :
    (∀ op, op ≠ Operation.CREATE →
      JWTToken.get_validator op = .error ("Unknown operation: " ++ op.pyName)) ∧
    (∀ op, op ≠ Operation.CREATE → op ≠ Operation.UPDATE →
      Campaign.get_validator op = .error ("Unknown operation: " ++ op.pyName)) ∧
    (∀ op, Todo.get_validator op = .ok .TodoCreateValidator) ∧
    (∀ op, ∃ v, User.get_validator op = .ok v) := by
  refine ⟨fun op hop => ?_, fun op hop1 hop2 => ?_, fun op => rfl, fun op => ?_⟩
  · cases op with
    | CREATE => exact absurd rfl hop
    | UPDATE => rfl
    | DELETE => rfl
  · cases op with
    | CREATE => exact absurd rfl hop1
    | UPDATE => exact absurd rfl hop2
    | DELETE => rfl
  · cases op with
    | CREATE => exact ⟨.CreateUserValidator, rfl⟩
    | UPDATE => exact ⟨.UpdateUserValidator, rfl⟩
    | DELETE => exact ⟨.DeleteUserValidator, rfl⟩

/-- C8 witness: the JWT token model rejects the UPDATE lookup while the
todo model silently hands back its CREATE validator for UPDATE. -/
theorem C8_get_validator_dispatch_witness :
    JWTToken.get_validator .UPDATE = .error "Unknown operation: Operation.UPDATE" ∧
    Todo.get_validator .UPDATE = .ok .TodoCreateValidator :=
  ⟨C8_get_validator_dispatch.1 .UPDATE (by decide),
   C8_get_validator_dispatch.2.2.1 .UPDATE⟩

/-- The payload of the C1 counterexample token: a validly signed token
whose subject claim is present but is the empty string. -/
def c1CexPayload : Claims :=
  { sub := some "", user_id := some "u1", email := none, scopes := none,
    exp := none }

/-- The C1 counterexample token. -/
def c1CexTok : Token := .signed c1CexPayload "secret"

/-- The hash function of the C1 counterexample. -/
def c1CexHash : Token → String := fun _ => "h1"

/-- C1 counterexample: the token decodes successfully, its subject claim
is present (the empty string, not absent), no ledger record exists and no
identity matches, so the claimed decision sequence requires the "User not
found" outcome — but `if not username:` is a Python truthiness test, so
the code answers "Missing user information" instead. -/
theorem C1_counterexample_empty_subject :
    decode_token c1CexTok "secret" 0 = some c1CexPayload ∧
    c1CexPayload.sub = some "" ∧
    get_by_hash [] (c1CexHash c1CexTok) = none ∧
    get_user_by_username [] "" = none ∧
    AuthService.validate_token c1CexHash "secret" 0 [] [] c1CexTok =
      { valid := false, user := none, error := some "Missing user information" } ∧
    AuthService.validate_token c1CexHash "secret" 0 [] [] c1CexTok ≠
      { valid := false, user := none, error := some "User not found" } := by
  refine ⟨rfl, rfl, rfl, rfl, rfl, by decide⟩

/-- C1 (amended): the decision sequence of `validate_token`, with the two
Python-truthiness refinements: a decode failure or an empty decoded
claims dictionary yields "Invalid token"; an absent or empty-string
subject yields the missing-identity result; a ledger row for the token's
hash that is revoked yields "Token revoked"; an unknown subject username
yields "User not found"; otherwise the result is valid with the identity
summary and the scopes claimed in the token.  A token with no ledger row
at all passes the revocation stage and is treated as valid when the
identity resolves. -/
theorem C1_validate_token_decision_sequence (hashFn : Token → String)
    (key : String) (now : Int) (users : List UserRec)
    (ledger : List JWTTokenRec) (tok : Token) :
    (decode_token tok key now = none →
      AuthService.validate_token hashFn key now users ledger tok =
        { valid := false, user := none, error := some "Invalid token" }) ∧
    (∀ p, decode_token tok key now = some p → p.isEmptyDict = true →
      AuthService.validate_token hashFn key now users ledger tok =
        { valid := false, user := none, error := some "Invalid token" }) ∧
    (∀ p, decode_token tok key now = some p → p.isEmptyDict = false →
      (p.sub = none ∨ p.sub = some "") →
      AuthService.validate_token hashFn key now users ledger tok =
        { valid := false, user := none, error := some "Missing user information" }) ∧
    (∀ p u st, decode_token tok key now = some p → p.isEmptyDict = false →
      p.sub = some u → u ≠ "" →
      get_by_hash ledger (hashFn tok) = some st → st.is_revoked = true →
      AuthService.validate_token hashFn key now users ledger tok =
        { valid := false, user := none, error := some "Token revoked" }) ∧
    (∀ p u, decode_token tok key now = some p → p.isEmptyDict = false →
      p.sub = some u → u ≠ "" →
      (∀ st, get_by_hash ledger (hashFn tok) = some st → st.is_revoked = false) →
      get_user_by_username users u = none →
      AuthService.validate_token hashFn key now users ledger tok =
        { valid := false, user := none, error := some "User not found" }) ∧
    (∀ p u usr, decode_token tok key now = some p → p.isEmptyDict = false →
      p.sub = some u → u ≠ "" →
      (∀ st, get_by_hash ledger (hashFn tok) = some st → st.is_revoked = false) →
      get_user_by_username users u = some usr →
      AuthService.validate_token hashFn key now users ledger tok =
        { valid := true,
          user := some
            { id := usr.id, username := usr.username, email := usr.email,
              roles := if usr.is_admin then ["user", "admin"] else ["user"],
              scopes := p.scopes.getD [] },
          error := none }) ∧
    (∀ p u usr, decode_token tok key now = some p → p.isEmptyDict = false →
      p.sub = some u → u ≠ "" →
      get_by_hash ledger (hashFn tok) = none →
      get_user_by_username users u = some usr →
      (AuthService.validate_token hashFn key now users ledger tok).valid = true) := by
  refine ⟨fun hdec => ?_, fun p hdec hemp => ?_, fun p hdec hemp hsub => ?_,
          fun p u st hdec hemp hsub hu hst hrv => ?_,
          fun p u hdec hemp hsub hu hst hfind => ?_,
          fun p u usr hdec hemp hsub hu hst hfind => ?_,
          fun p u usr hdec hemp hsub hu hst hfind => ?_⟩
  · simp [AuthService.validate_token, hdec]
  · simp [AuthService.validate_token, hdec, hemp]
  · rcases hsub with hsub | hsub <;>
      simp [AuthService.validate_token, hdec, hemp, hsub]
  · simp [AuthService.validate_token, hdec, hemp, hsub, hu, hst, hrv]
  · cases hsf : get_by_hash ledger (hashFn tok) with
    | none => simp [AuthService.validate_token, hdec, hemp, hsub, hu, hsf, hfind]
    | some st =>
      have hrv := hst st hsf
      simp [AuthService.validate_token, hdec, hemp, hsub, hu, hsf, hrv, hfind]
  · cases hsf : get_by_hash ledger (hashFn tok) with
    | none => simp [AuthService.validate_token, hdec, hemp, hsub, hu, hsf, hfind]
    | some st =>
      have hrv := hst st hsf
      simp [AuthService.validate_token, hdec, hemp, hsub, hu, hsf, hrv, hfind]
  · simp [AuthService.validate_token, hdec, hemp, hsub, hu, hst, hfind]

/-- The identity of the C1 witness. -/
def c1User : UserRec :=
  { id := "u1", username := "alice", email := "a@example.com",
    hashed_password := "Password1!", full_name := none, is_active := true,
    is_admin := false, last_login := some 1000 }

/-- The payload of the C1 witness token. -/
def c1Payload : Claims :=
  { sub := some "alice", user_id := some "u1", email := some "a@example.com",
    scopes := some ["me"], exp := some 100 }

/-- C1 witness: a validly signed token with a nonempty subject, no ledger
row at all, and a matching identity validates as valid with the identity
summary and the claimed scopes. -/
theorem C1_validate_token_decision_sequence_witness :
    AuthService.validate_token c1CexHash "secret" 0 [c1User] []
        (.signed c1Payload "secret") =
      { valid := true,
        user := some
          { id := "u1", username := "alice", email := "a@example.com",
            roles := ["user"], scopes := ["me"] },
        error := none } :=
  (C1_validate_token_decision_sequence c1CexHash "secret" 0 [c1User] []
      (.signed c1Payload "secret")).2.2.2.2.2.1 c1Payload "alice" c1User rfl
    (by decide) rfl (by decide)
    (fun st hst => by simp [get_by_hash] at hst) rfl

end Thuriyam
